import Mathlib

/-!
# Verification of the emotional-manifold core

A shallow embedding of `src/lib/emotionalManifold.ts` (class
`EmotionalManifold`): the emotion scalar field, the finite-difference
metric machinery, the Christoffel-symbol computation together with its
memoization cache, the geodesic RK4 integrator, the parallel-transport
integrator, the curvature estimators and the fiber-bundle sweep.

JavaScript numbers are modelled as real numbers; `Math.tanh`, `Math.exp`,
`Math.sqrt`, `Math.atan2` become `Real.tanh`, `Real.exp`, `Real.sqrt` and a
piecewise `atan2` defined below; the literals `1e-9` and `1e-10` are written
as such (Lean scientific literals denote the same rationals exactly).
`x || 1` on a nonnegative JS number is modelled as `if x = 0 then 1 else x`.
The Christoffel memoization cache (a `Map<string, number>` keyed by
`` `${i}-${j}-${k}-${x.toFixed(3)}-${y.toFixed(3)}` ``) is modelled as an
explicit finite map keyed by the indices and the two coordinates quantized
to three decimal places (`round (1000 * x)`), threaded through
`computeChristoffelSymbolCached`; `computeChristoffelSymbol` is the pure
(cache-free) computation the method performs on a cache miss.
-/

namespace EmotionalManifold

/-- The seven-field parameter record (interface `EmotionalParams`). -/
structure EmotionalParams where
  EP : ℝ
  P : ℝ
  V : ℝ
  SC : ℝ
  Acc : ℝ
  W_p : ℝ
  T : ℝ

/-- The five named emotion intensities (interface `Emotions`). -/
structure Emotions where
  happiness : ℝ
  sadness : ℝ
  fear : ℝ
  anger : ℝ
  worry : ℝ

noncomputable section

/-- `computeHappiness`: kappa 2.0, decay 0.5, signed discrepancy `P - EP`. -/
def computeHappiness (EP P V SC Acc W_p T : ℝ) : ℝ :=
  let Delta := P - EP
  let weight := V * SC * Acc * W_p
  let scaled := 2.0 * weight * Delta
  let decayed := scaled * Real.exp (-(0.5 * T))
  Real.tanh decayed

/-- `computeSadness`: kappa 2.5, decay 0.3, one-sided `max (EP - P) 0`, negated. -/
def computeSadness (EP P V SC Acc W_p T : ℝ) : ℝ :=
  let Delta := max (EP - P) 0
  let weight := V * SC * Acc * W_p
  let scaled := 2.5 * weight * Delta
  let decayed := scaled * Real.exp (-(0.3 * T));
  -Real.tanh decayed

/-- `computeFear`: kappa 4.0, decay 1.0, complementary acceptance `1 - Acc`. -/
def computeFear (EP P V SC Acc W_p T : ℝ) : ℝ :=
  let Delta := max (EP - P) 0
  let weight := V * SC * (1 - Acc) * W_p
  let scaled := 4.0 * weight * Delta
  let decayed := scaled * Real.exp (-(1.0 * T))
  Real.tanh decayed

/-- `computeAnger`: kappa 3.5, decay 0.7; its weight uses the caller-supplied
`W_ext` (the complementary perspective weight) in place of `W_p`. -/
def computeAnger (EP P V SC Acc W_ext T : ℝ) : ℝ :=
  let Delta := max (EP - P) 0
  let weight := V * SC * (1 - Acc) * W_ext
  let scaled := 3.5 * weight * Delta
  let decayed := scaled * Real.exp (-(0.7 * T))
  Real.tanh decayed

/-- `computeWorry`: kappa 3.0, decay 0.4. -/
def computeWorry (EP P V SC Acc W_p T : ℝ) : ℝ :=
  let Delta := max (EP - P) 0
  let weight := V * SC * (1 - Acc) * W_p
  let scaled := 3.0 * weight * Delta
  let decayed := scaled * Real.exp (-(0.4 * T))
  Real.tanh decayed

/-- `computeAllEmotions`: the five intensities, anger with `W_ext = 1 - W_p`. -/
def computeAllEmotions (EP P V SC Acc W_p T : ℝ) : Emotions :=
  let W_ext := 1 - W_p
  { happiness := computeHappiness EP P V SC Acc W_p T
    sadness := computeSadness EP P V SC Acc W_p T
    fear := computeFear EP P V SC Acc W_p T
    anger := computeAnger EP P V SC Acc W_ext T
    worry := computeWorry EP P V SC Acc W_p T }

/-- `getDominantEmotion`: folds over the record entries in declaration order
(`Object.entries` iterates insertion order), keeping the first entry of
strictly maximal absolute value; starts from `('neutral', 0)`. -/
def getDominantEmotion (e : Emotions) : String × ℝ :=
  [("happiness", e.happiness), ("sadness", e.sadness), ("fear", e.fear),
      ("anger", e.anger), ("worry", e.worry)].foldl
    (fun acc p => if |p.2| > acc.2 then (p.1, |p.2|) else acc) ("neutral", 0)

/-- `computeManifoldHeight`: substitutes the spatial coordinates `x`, `y` for
`EP`, `P`, averages the five emotions weighted by their kappas (sum 15, with
`1e-9` added against division by zero) and doubles the result. -/
def computeManifoldHeight (x y : ℝ) (params : EmotionalParams) : ℝ :=
  let e := computeAllEmotions x y params.V params.SC params.Acc params.W_p params.T
  let h := e.happiness * 2.0 + e.sadness * 2.5 + e.fear * 4.0 +
    e.anger * 3.5 + e.worry * 3.0
  let w : ℝ := 2.0 + 2.5 + 4.0 + 3.5 + 3.0
  h / (w + 1e-9) * 2

/-- `computeCurvature`: Gaussian curvature of the height graph by central
finite differences, with `1e-10` added to the denominator. -/
def computeCurvature (x y : ℝ) (params : EmotionalParams) (h : ℝ) : ℝ :=
  let z := computeManifoldHeight x y params
  let z_xx := (computeManifoldHeight (x + h) y params - 2 * z +
    computeManifoldHeight (x - h) y params) / (h * h)
  let z_yy := (computeManifoldHeight x (y + h) params - 2 * z +
    computeManifoldHeight x (y - h) params) / (h * h)
  let z_xy := (computeManifoldHeight (x + h) (y + h) params -
    computeManifoldHeight (x + h) (y - h) params -
    computeManifoldHeight (x - h) (y + h) params +
    computeManifoldHeight (x - h) (y - h) params) / (4 * h * h)
  let z_x := (computeManifoldHeight (x + h) y params -
    computeManifoldHeight (x - h) y params) / (2 * h)
  let z_y := (computeManifoldHeight x (y + h) params -
    computeManifoldHeight x (y - h) params) / (2 * h)
  let num := z_xx * z_yy - z_xy * z_xy
  let den := (1 + z_x * z_x + z_y * z_y) ^ 2
  num / (den + 1e-10)

/-- 2×2 real matrices, indexed as the source's `number[][]`. -/
abbrev Mat2 := Fin 2 → Fin 2 → ℝ

/-- The determinant expression `m[0][0]*m[1][1] - m[0][1]*m[1][0]` that
`invertMatrix2x2` computes. -/
def matDet2 (m : Mat2) : ℝ := m 0 0 * m 1 1 - m 0 1 * m 1 0

/-- Entrywise 2×2 matrix product, for stating inverse correctness. -/
def matMul2 (a b : Mat2) : Mat2 := fun r c => a r 0 * b 0 c + a r 1 * b 1 c

/-- The 2×2 identity matrix. -/
def idMat2 : Mat2 := ![![1, 0], ![0, 1]]

/-- `computeMetricTensor`: graph metric from forward finite differences of the
height with step `h`. -/
def computeMetricTensor (x y : ℝ) (params : EmotionalParams) (h : ℝ) : Mat2 :=
  let z := computeManifoldHeight x y params
  let z_x := (computeManifoldHeight (x + h) y params - z) / h
  let z_y := (computeManifoldHeight x (y + h) params - z) / h
  ![![1 + z_x * z_x, z_x * z_y], ![z_x * z_y, 1 + z_y * z_y]]

/-- `invertMatrix2x2`: identity fallback when `|det| < 1e-10`, cofactor
inverse otherwise. -/
def invertMatrix2x2 (m : Mat2) : Mat2 :=
  let d := matDet2 m
  if |d| < 1e-10 then ![![1, 0], ![0, 1]]
  else ![![m 1 1 / d, -m 0 1 / d], ![-m 1 0 / d, m 0 0 / d]]

/-- `computeMetricDerivative`: forward difference of the metric tensor in
direction `dir` (`0` for `'x'`, `1` for `'y'`). -/
def computeMetricDerivative (x y : ℝ) (params : EmotionalParams) (h : ℝ)
    (dir : Fin 2) : Mat2 :=
  let g := computeMetricTensor x y params h
  let g2 := if dir = 0 then computeMetricTensor (x + h) y params h
    else computeMetricTensor x (y + h) params h
  ![![(g2 0 0 - g 0 0) / h, (g2 0 1 - g 0 1) / h],
    ![(g2 1 0 - g 1 0) / h, (g2 1 1 - g 1 1) / h]]

/-- The pure Christoffel computation `computeChristoffelSymbol` performs on a
cache miss: `Γⁱⱼₖ = Σₗ ½ gⁱˡ (∂ⱼ g_{kl} + ∂ₖ g_{jl} − ∂ₗ g_{jk})`, the loop
over `l ∈ {0,1}` written out. -/
def computeChristoffelSymbol (i j k : Fin 2) (x y : ℝ)
    (params : EmotionalParams) (h : ℝ) : ℝ :=
  let g := computeMetricTensor x y params h
  let g_inv := invertMatrix2x2 g
  let derivs : Fin 2 → Mat2 :=
    ![computeMetricDerivative x y params h 0, computeMetricDerivative x y params h 1]
  0.5 * g_inv i 0 * (derivs j k 0 + derivs k j 0 - derivs 0 j k) +
    0.5 * g_inv i 1 * (derivs j k 1 + derivs k j 1 - derivs 1 j k)

/-- A cache key: the three indices and the two coordinates quantized to three
decimal places, as the source's `` `${i}-${j}-${k}-${x.toFixed(3)}-${y.toFixed(3)}` ``
string key. Note the key carries neither `params` nor `h`. -/
abbrev ChristoffelKey : Type := Fin 2 × Fin 2 × Fin 2 × ℤ × ℤ

/-- The quantized key for a query at `(i, j, k, x, y)`. -/
def christoffelKey (i j k : Fin 2) (x y : ℝ) : ChristoffelKey :=
  (i, j, k, round (1000 * x), round (1000 * y))

/-- The memoization map `christoffelCache` of one `EmotionalManifold` instance. -/
abbrev ChristoffelCache : Type := ChristoffelKey → Option ℝ

/-- The instance's initial cache: `new Map()`. -/
def emptyChristoffelCache : ChristoffelCache := fun _ => none

/-- The full, stateful `computeChristoffelSymbol` method: returns the cached
value when the quantized key is present, otherwise computes the pure value,
stores it under the key and returns it (result, updated cache). -/
def computeChristoffelSymbolCached (cache : ChristoffelCache) (i j k : Fin 2)
    (x y : ℝ) (params : EmotionalParams) (h : ℝ) : ℝ × ChristoffelCache :=
  match cache (christoffelKey i j k x y) with
  | some v => (v, cache)
  | none =>
      let gamma := computeChristoffelSymbol i j k x y params h
      (gamma, fun key => if key = christoffelKey i j k x y then some gamma else cache key)

/-- The geodesic integrator's running state: position and velocity. -/
structure GeoState where
  x : ℝ
  y : ℝ
  vx : ℝ
  vy : ℝ

/-- `geodesicDerivative`: the geodesic accelerations `(ax, ay)` from the six
Christoffel components at `(x, y)` with the hard-wired step `h = 0.01`. -/
def geodesicDerivative (x y vx vy : ℝ) (params : EmotionalParams) : ℝ × ℝ :=
  let h : ℝ := 0.01
  let Gxx := computeChristoffelSymbol 0 0 0 x y params h
  let Gxy := computeChristoffelSymbol 0 0 1 x y params h
  let Gyy := computeChristoffelSymbol 0 1 1 x y params h
  let Hxx := computeChristoffelSymbol 1 0 0 x y params h
  let Hxy := computeChristoffelSymbol 1 0 1 x y params h
  let Hyy := computeChristoffelSymbol 1 1 1 x y params h
  (-(Gxx * vx * vx + 2 * Gxy * vx * vy + Gyy * vy * vy),
    -(Hxx * vx * vx + 2 * Hxy * vx * vy + Hyy * vy * vy))

/-- One iteration of `computeGeodesic`'s loop body: the RK4 velocity update
followed by the position update `x += dt * vx`. -/
def geodesicStep (params : EmotionalParams) (dt : ℝ) (st : GeoState) : GeoState :=
  let k1 := geodesicDerivative st.x st.y st.vx st.vy params
  let k2 := geodesicDerivative (st.x + 0.5 * dt * st.vx) (st.y + 0.5 * dt * st.vy)
    (st.vx + 0.5 * dt * k1.1) (st.vy + 0.5 * dt * k1.2) params
  let k3 := geodesicDerivative (st.x + 0.5 * dt * (st.vx + 0.5 * dt * k1.1))
    (st.y + 0.5 * dt * (st.vy + 0.5 * dt * k1.2))
    (st.vx + 0.5 * dt * k2.1) (st.vy + 0.5 * dt * k2.2) params
  let k4 := geodesicDerivative (st.x + dt * (st.vx + 0.5 * dt * k2.1))
    (st.y + dt * (st.vy + 0.5 * dt * k2.2))
    (st.vx + dt * k3.1) (st.vy + dt * k3.2) params
  let vx2 := st.vx + dt / 6 * (k1.1 + 2 * k2.1 + 2 * k3.1 + k4.1)
  let vy2 := st.vy + dt / 6 * (k1.2 + 2 * k2.2 + 2 * k3.2 + k4.2)
  ⟨st.x + dt * vx2, st.y + dt * vy2, vx2, vy2⟩

/-- `computeGeodesic`'s `for` loop: at most `n` more iterations, each pushing
the stepped state and breaking once `|x| > 1` or `|y| > 1`. -/
def geodesicLoop (params : EmotionalParams) (dt : ℝ) : ℕ → GeoState → List GeoState
  | 0, _ => []
  | n + 1, st =>
      let st2 := geodesicStep params dt st
      st2 :: (if 1 < |st2.x| ∨ 1 < |st2.y| then [] else geodesicLoop params dt n st2)

/-- A point pushed onto the geodesic path / transport path (`THREE.Vector3`). -/
structure Vec3 where
  x : ℝ
  y : ℝ
  z : ℝ

/-- The initial state of `computeGeodesic`: position at `start`, velocity the
direction from `start` to `finish` normalized with the `|| 1` guard. -/
def geodesicInit (strt fin : ℝ × ℝ) : GeoState :=
  let vx := fin.1 - strt.1
  let vy := fin.2 - strt.2
  let vm0 := Real.sqrt (vx * vx + vy * vy)
  let vm := if vm0 = 0 then 1 else vm0
  ⟨strt.1, strt.2, vx / vm, vy / vm⟩

/-- Scale a state to a pushed path point `(x*3, y*3, height)`. -/
def geodesicPoint (params : EmotionalParams) (st : GeoState) : Vec3 :=
  ⟨st.x * 3, st.y * 3, computeManifoldHeight st.x st.y params⟩

/-- `computeGeodesic(start, end, params, steps)`: the start point followed by
one point per completed loop iteration. -/
def computeGeodesic (strt fin : ℝ × ℝ) (params : EmotionalParams) (steps : ℕ) :
    List Vec3 :=
  let dt := 1 / (steps : ℝ)
  geodesicPoint params ⟨strt.1, strt.2, 0, 0⟩ ::
    (geodesicLoop params dt steps (geodesicInit strt fin)).map (geodesicPoint params)

/-- `parallelTransport`'s loop over consecutive path pairs, carrying the
transported vector; each iteration records the updated vector at the
segment's start point. `h = 0.01`; positions are scaled back by `/ 3`. -/
def parallelTransportAux (params : EmotionalParams) :
    ℝ × ℝ → List Vec3 → List (Vec3 × (ℝ × ℝ))
  | _, [] => []
  | _, [_] => []
  | vec, p1 :: p2 :: rest =>
      let h : ℝ := 0.01
      let tx := p2.x - p1.x
      let ty := p2.y - p1.y
      let tm0 := Real.sqrt (tx * tx + ty * ty)
      let tm := if tm0 = 0 then 1 else tm0
      let tnx := tx / tm
      let tny := ty / tm
      let x := p1.x / 3
      let y := p1.y / 3
      let Gxx := computeChristoffelSymbol 0 0 0 x y params h
      let Gxy := computeChristoffelSymbol 0 0 1 x y params h
      let Gyy := computeChristoffelSymbol 0 1 1 x y params h
      let Hxx := computeChristoffelSymbol 1 0 0 x y params h
      let Hxy := computeChristoffelSymbol 1 0 1 x y params h
      let Hyy := computeChristoffelSymbol 1 1 1 x y params h
      let dVx := -(Gxx * tnx * vec.1 + Gxy * (tnx * vec.2 + tny * vec.1) + Gyy * tny * vec.2)
      let dVy := -(Hxx * tnx * vec.1 + Hxy * (tnx * vec.2 + tny * vec.1) + Hyy * tny * vec.2)
      let vec2 := (vec.1 + dVx * tm, vec.2 + dVy * tm)
      (p1, vec2) :: parallelTransportAux params vec2 (p2 :: rest)

/-- `parallelTransport(vec, path, params)`. -/
def parallelTransport (vec : ℝ × ℝ) (path : List Vec3) (params : EmotionalParams) :
    List (Vec3 × (ℝ × ℝ)) :=
  parallelTransportAux params vec path

/-- `computeFiberBundle`: 21 samples sweeping `W_p` over `i/20`, the height at
the base recomputed with the swept weight plus the linear offset `(w_p-0.5)*2`. -/
def computeFiberBundle (base : ℝ × ℝ) (params : EmotionalParams) : List Vec3 :=
  List.ofFn fun i : Fin 21 =>
    let w_p := (i : ℕ) / (20 : ℝ)
    let z := computeManifoldHeight base.1 base.2 { params with W_p := w_p }
    let fh := (w_p - 0.5) * 2
    ⟨base.1 * 3, base.2 * 3, z + fh⟩

/-- `Math.atan2 y x` (signed zeros ignored: JS distinguishes `atan2(0, -0)`
from `atan2(0, 0)`, reals cannot; no claim depends on that corner). -/
def atan2 (y x : ℝ) : ℝ :=
  if 0 < x then Real.arctan (y / x)
  else if x < 0 then
    (if 0 ≤ y then Real.arctan (y / x) + Real.pi else Real.arctan (y / x) - Real.pi)
  else
    (if 0 < y then Real.pi / 2 else if y < 0 then -(Real.pi / 2) else 0)

/-- `computeConnectionCurvature`: transport `(1, 0)` around the closed square
loop of side `h` at `(x, y)` and divide the net rotation angle by `h²`. -/
def computeConnectionCurvature (x y : ℝ) (params : EmotionalParams) (h : ℝ) : ℝ :=
  let loop := [(x, y), (x + h, y), (x + h, y + h), (x, y + h), (x, y)]
  let path := loop.map fun q =>
    (⟨q.1 * 3, q.2 * 3, computeManifoldHeight q.1 q.2 params⟩ : Vec3)
  let init : ℝ × ℝ := (1, 0)
  let trans := parallelTransport init path params
  if 0 < trans.length then
    let fv := (trans.getLastD (⟨0, 0, 0⟩, (0, 0))).2
    (atan2 fv.2 fv.1 - atan2 init.2 init.1) / (h * h)
  else 0

end

/-! ## Basic facts about the bounded nonlinearity -/

theorem tanh_le_one (x : ℝ) : Real.tanh x ≤ 1 := by
  rw [Real.tanh_eq_sinh_div_cosh, div_le_one (Real.cosh_pos x)]
  exact (Real.sinh_lt_cosh x).le

theorem neg_one_le_tanh (x : ℝ) : -1 ≤ Real.tanh x := by
  have h := tanh_le_one (-x)
  rw [Real.tanh_neg] at h
  linarith

theorem tanh_pos {x : ℝ} (hx : 0 < x) : 0 < Real.tanh x := by
  rw [Real.tanh_eq_sinh_div_cosh]
  exact div_pos (Real.sinh_pos_iff.mpr hx) (Real.cosh_pos x)

/-! ## The flat surface: attachment weight `V = 0` kills every emotion term -/

theorem computeAllEmotions_V_zero (EP P SC Acc W_p T : ℝ) :
    computeAllEmotions EP P 0 SC Acc W_p T = ⟨0, 0, 0, 0, 0⟩ := by
  simp [computeAllEmotions, computeHappiness, computeSadness, computeFear,
    computeAnger, computeWorry, Real.tanh_zero]

theorem computeManifoldHeight_V_zero (params : EmotionalParams)
    (hV : params.V = 0) (x y : ℝ) : computeManifoldHeight x y params = 0 := by
  simp [computeManifoldHeight, hV, computeAllEmotions_V_zero]

theorem computeMetricTensor_V_zero (params : EmotionalParams)
    (hV : params.V = 0) (x y h : ℝ) :
    computeMetricTensor x y params h = ![![1, 0], ![0, 1]] := by
  simp [computeMetricTensor, computeManifoldHeight_V_zero _ hV]

theorem computeMetricDerivative_V_zero (params : EmotionalParams)
    (hV : params.V = 0) (x y h : ℝ) (dir : Fin 2) :
    computeMetricDerivative x y params h dir = ![![0, 0], ![0, 0]] := by
  simp [computeMetricDerivative, computeMetricTensor_V_zero _ hV]

theorem computeChristoffelSymbol_V_zero (params : EmotionalParams)
    (hV : params.V = 0) (i j k : Fin 2) (x y h : ℝ) :
    computeChristoffelSymbol i j k x y params h = 0 := by
  fin_cases j <;> fin_cases k <;>
    simp [computeChristoffelSymbol, computeMetricDerivative_V_zero _ hV]

/-! ## Claim C2 -/

theorem computeMetricTensor_offdiag (x y : ℝ) (params : EmotionalParams) (h : ℝ) :
    computeMetricTensor x y params h 0 1 = computeMetricTensor x y params h 1 0 := by
  simp only [computeMetricTensor, Matrix.cons_val_zero, Matrix.cons_val_one,
    Matrix.head_cons]

theorem computeMetricDerivative_offdiag (x y : ℝ) (params : EmotionalParams)
    (h : ℝ) (dir : Fin 2) :
    computeMetricDerivative x y params h dir 0 1 =
      computeMetricDerivative x y params h dir 1 0 := by
  by_cases hd : dir = 0 <;>
    simp only [computeMetricDerivative, hd, ite_true, ite_false,
      Matrix.cons_val_zero, Matrix.cons_val_one, Matrix.head_cons,
      computeMetricTensor_offdiag]

/-- C2: for every `i ∈ {0,1}`, point `(x, y)`, parameter record and step `h`,
`christoffel(i,0,1,x,y,params,h) = christoffel(i,1,0,x,y,params,h)`: the
connection coefficients are symmetric in the lower index pair. -/
theorem computeChristoffelSymbol_symm (i : Fin 2) (x y : ℝ)
    (params : EmotionalParams) (h : ℝ) :
    computeChristoffelSymbol i 0 1 x y params h =
      computeChristoffelSymbol i 1 0 x y params h := by
  simp only [computeChristoffelSymbol, Matrix.cons_val_zero, Matrix.cons_val_one,
    Matrix.head_cons]
  rw [computeMetricDerivative_offdiag x y params h 0,
    computeMetricDerivative_offdiag x y params h 1]
  ring

/-! ## Claims C7 and C10: the 2×2 inverse and the metric determinant -/

theorem invertMatrix2x2_of_small (m : Mat2) (hd : |matDet2 m| < 1e-10) :
    invertMatrix2x2 m = idMat2 := by
  simp only [invertMatrix2x2]
  rw [if_pos hd]
  rfl

theorem invertMatrix2x2_mul_of_det (m : Mat2) (hd : ¬ |matDet2 m| < 1e-10) :
    matMul2 (invertMatrix2x2 m) m = idMat2 ∧
      matMul2 m (invertMatrix2x2 m) = idMat2 := by
  have hne : matDet2 m ≠ 0 := by
    intro h0
    apply hd
    rw [h0]
    norm_num
  constructor <;> (funext r c; fin_cases r <;> fin_cases c) <;>
    (simp only [matMul2, invertMatrix2x2, if_neg hd, idMat2,
      Matrix.cons_val_zero, Matrix.cons_val_one, Matrix.head_cons]
     field_simp
     try simp only [matDet2]
     try ring)

/-- C7: `invertMatrix2x2` is total: on `|det| < 1e-10` it returns the identity
matrix (the documented degenerate-metric fallback, not an error), and
otherwise its result is a genuine two-sided inverse of `m`. -/
theorem invertMatrix2x2_total_spec (m : Mat2) :
    (|matDet2 m| < 1e-10 → invertMatrix2x2 m = idMat2) ∧
    (¬ |matDet2 m| < 1e-10 →
      matMul2 (invertMatrix2x2 m) m = idMat2 ∧
        matMul2 m (invertMatrix2x2 m) = idMat2) :=
  ⟨invertMatrix2x2_of_small m, invertMatrix2x2_mul_of_det m⟩

/-- C10: the metric tensor's determinant is `1 + z_x² + z_y² ≥ 1`, so the
`|det| < 1e-10` fallback inside the Christoffel computation is unreachable
and `invertMatrix2x2` returns the true inverse of the metric. -/
theorem computeMetricTensor_det_ge_one (x y : ℝ) (params : EmotionalParams) (h : ℝ) :
    matDet2 (computeMetricTensor x y params h) =
      1 + ((computeManifoldHeight (x + h) y params - computeManifoldHeight x y params) / h) ^ 2 +
        ((computeManifoldHeight x (y + h) params - computeManifoldHeight x y params) / h) ^ 2 ∧
    1 ≤ matDet2 (computeMetricTensor x y params h) ∧
    ¬ |matDet2 (computeMetricTensor x y params h)| < 1e-10 ∧
    matMul2 (invertMatrix2x2 (computeMetricTensor x y params h))
      (computeMetricTensor x y params h) = idMat2 ∧
    matMul2 (computeMetricTensor x y params h)
      (invertMatrix2x2 (computeMetricTensor x y params h)) = idMat2 := by
  have hdet : matDet2 (computeMetricTensor x y params h) =
      1 + ((computeManifoldHeight (x + h) y params - computeManifoldHeight x y params) / h) ^ 2 +
        ((computeManifoldHeight x (y + h) params - computeManifoldHeight x y params) / h) ^ 2 := by
    simp only [computeMetricTensor, matDet2, Matrix.cons_val_zero,
      Matrix.cons_val_one, Matrix.head_cons]
    ring
  have h1 : 1 ≤ matDet2 (computeMetricTensor x y params h) := by
    rw [hdet]
    have ha := sq_nonneg ((computeManifoldHeight (x + h) y params -
      computeManifoldHeight x y params) / h)
    have hb := sq_nonneg ((computeManifoldHeight x (y + h) params -
      computeManifoldHeight x y params) / h)
    linarith
  have h2 : ¬ |matDet2 (computeMetricTensor x y params h)| < 1e-10 := by
    rw [not_lt]
    calc (1e-10 : ℝ) ≤ 1 := by norm_num
    _ ≤ matDet2 (computeMetricTensor x y params h) := h1
    _ ≤ |matDet2 (computeMetricTensor x y params h)| := le_abs_self _
  exact ⟨hdet, h1, h2, (invertMatrix2x2_mul_of_det _ h2).1,
    (invertMatrix2x2_mul_of_det _ h2).2⟩

/-! ## Claim C9: the height field never reads `EP` and `P` -/

/-- C9: `computeManifoldHeight` substitutes the spatial coordinates for
expectation and perception, so two parameter records agreeing on `V`, `SC`,
`Acc`, `W_p`, `T` (with `EP`, `P` arbitrary) give the same height field. -/
theorem computeManifoldHeight_EP_P_independent (x y : ℝ) (p1 p2 : EmotionalParams)
    (hV : p1.V = p2.V) (hSC : p1.SC = p2.SC) (hAcc : p1.Acc = p2.Acc)
    (hW : p1.W_p = p2.W_p) (hT : p1.T = p2.T) :
    computeManifoldHeight x y p1 = computeManifoldHeight x y p2 := by
  simp only [computeManifoldHeight, hV, hSC, hAcc, hW, hT]

theorem computeManifoldHeight_EP_P_independent_witness :
    (⟨0, 0, 1, 1, 1, 1, 1⟩ : EmotionalParams).V = (⟨5, 7, 1, 1, 1, 1, 1⟩ : EmotionalParams).V ∧
    (⟨0, 0, 1, 1, 1, 1, 1⟩ : EmotionalParams).SC = (⟨5, 7, 1, 1, 1, 1, 1⟩ : EmotionalParams).SC ∧
    (⟨0, 0, 1, 1, 1, 1, 1⟩ : EmotionalParams).Acc = (⟨5, 7, 1, 1, 1, 1, 1⟩ : EmotionalParams).Acc ∧
    (⟨0, 0, 1, 1, 1, 1, 1⟩ : EmotionalParams).W_p = (⟨5, 7, 1, 1, 1, 1, 1⟩ : EmotionalParams).W_p ∧
    (⟨0, 0, 1, 1, 1, 1, 1⟩ : EmotionalParams).T = (⟨5, 7, 1, 1, 1, 1, 1⟩ : EmotionalParams).T ∧
    computeManifoldHeight 0 1 ⟨0, 0, 1, 1, 1, 1, 1⟩ =
      computeManifoldHeight 0 1 ⟨5, 7, 1, 1, 1, 1, 1⟩ :=
  ⟨rfl, rfl, rfl, rfl, rfl,
    computeManifoldHeight_EP_P_independent 0 1 _ _ rfl rfl rfl rfl rfl⟩

/-! ## Claim C8: the fiber-bundle sweep -/

/-- C8: `computeFiberBundle` returns exactly 21 points, the `i`-th obtained by
replacing `W_p` with `i/20` in the height and adding the offset `(i/20-0.5)*2`. -/
theorem computeFiberBundle_spec (base : ℝ × ℝ) (params : EmotionalParams) :
    (computeFiberBundle base params).length = 21 ∧
    ∀ i : Fin 21, (computeFiberBundle base params).getD i ⟨0, 0, 0⟩ =
      ⟨base.1 * 3, base.2 * 3,
        computeManifoldHeight base.1 base.2 { params with W_p := (i : ℕ) / 20 } +
          ((i : ℕ) / 20 - 0.5) * 2⟩ := by
  constructor
  · simp [computeFiberBundle]
  · intro i
    have hlen : (i : ℕ) < (computeFiberBundle base params).length := by
      simp only [computeFiberBundle, List.length_ofFn]
      exact i.isLt
    rw [List.getD_eq_getElem _ _ hlen]
    simp only [computeFiberBundle, List.getElem_ofFn]

/-! ## Claim C5: bounded intensities and the dominant magnitude -/

theorem foldl_max_abs_snd :
    ∀ (l : List (String × ℝ)) (acc : String × ℝ),
      (l.foldl (fun a p => if |p.2| > a.2 then (p.1, |p.2|) else a) acc).2 =
        l.foldl (fun m p => max m |p.2|) acc.2 := by
  intro l
  induction l with
  | nil => intro acc; rfl
  | cons a l ih =>
      intro acc
      simp only [List.foldl_cons]
      rw [ih]
      congr 1
      by_cases hc : |a.2| > acc.2
      · rw [if_pos hc]
        exact (max_eq_right hc.le).symm
      · rw [if_neg hc]
        exact (max_eq_left (not_lt.mp hc)).symm

theorem getDominantEmotion_magnitude (e : Emotions) :
    (getDominantEmotion e).2 =
      max |e.happiness| (max |e.sadness| (max |e.fear| (max |e.anger| |e.worry|))) := by
  rw [getDominantEmotion, foldl_max_abs_snd]
  simp only [List.foldl_cons, List.foldl_nil]
  rw [max_eq_right (abs_nonneg e.happiness), max_assoc, max_assoc, max_assoc]

/-- C5: every emotion intensity computed by `computeAllEmotions` lies in
`[-1, 1]`, and `getDominantEmotion` returns as magnitude the maximum of the
absolute values of the five entries. -/
theorem computeAllEmotions_bounded_dominant (EP P V SC Acc W_p T : ℝ) :
    (-1 ≤ (computeAllEmotions EP P V SC Acc W_p T).happiness ∧
      (computeAllEmotions EP P V SC Acc W_p T).happiness ≤ 1) ∧
    (-1 ≤ (computeAllEmotions EP P V SC Acc W_p T).sadness ∧
      (computeAllEmotions EP P V SC Acc W_p T).sadness ≤ 1) ∧
    (-1 ≤ (computeAllEmotions EP P V SC Acc W_p T).fear ∧
      (computeAllEmotions EP P V SC Acc W_p T).fear ≤ 1) ∧
    (-1 ≤ (computeAllEmotions EP P V SC Acc W_p T).anger ∧
      (computeAllEmotions EP P V SC Acc W_p T).anger ≤ 1) ∧
    (-1 ≤ (computeAllEmotions EP P V SC Acc W_p T).worry ∧
      (computeAllEmotions EP P V SC Acc W_p T).worry ≤ 1) ∧
    (getDominantEmotion (computeAllEmotions EP P V SC Acc W_p T)).2 =
      max |(computeAllEmotions EP P V SC Acc W_p T).happiness|
        (max |(computeAllEmotions EP P V SC Acc W_p T).sadness|
          (max |(computeAllEmotions EP P V SC Acc W_p T).fear|
            (max |(computeAllEmotions EP P V SC Acc W_p T).anger|
              |(computeAllEmotions EP P V SC Acc W_p T).worry|))) := by
  refine ⟨⟨neg_one_le_tanh _, tanh_le_one _⟩, ⟨?_, ?_⟩,
    ⟨neg_one_le_tanh _, tanh_le_one _⟩, ⟨neg_one_le_tanh _, tanh_le_one _⟩,
    ⟨neg_one_le_tanh _, tanh_le_one _⟩, getDominantEmotion_magnitude _⟩
  · exact neg_le_neg (tanh_le_one _)
  · simpa using neg_le_neg (neg_one_le_tanh _)

/-! ## Claim C6: transport entry count -/

theorem parallelTransportAux_length (params : EmotionalParams) :
    ∀ (path : List Vec3) (vec : ℝ × ℝ),
      (parallelTransportAux params vec path).length = path.length - 1
  | [], _ => rfl
  | [_], _ => rfl
  | p1 :: p2 :: rest, vec => by
      simp only [parallelTransportAux, List.length_cons]
      rw [parallelTransportAux_length params (p2 :: rest)]
      simp

/-- C6: `parallelTransport` over a path of length `N ≥ 1` returns an ordered
list of exactly `N - 1` entries, one per consecutive path-segment pair. -/
theorem parallelTransport_length (vec : ℝ × ℝ) (path : List Vec3)
    (params : EmotionalParams) (_hN : 1 ≤ path.length) :
    (parallelTransport vec path params).length = path.length - 1 :=
  parallelTransportAux_length params path vec

theorem parallelTransport_length_witness :
    1 ≤ ([⟨1, 2, 3⟩, ⟨4, 5, 6⟩] : List Vec3).length ∧
      (parallelTransport (1, 0) [⟨1, 2, 3⟩, ⟨4, 5, 6⟩] ⟨0, 0, 0, 0, 0, 0, 0⟩).length =
        ([⟨1, 2, 3⟩, ⟨4, 5, 6⟩] : List Vec3).length - 1 :=
  ⟨by simp, parallelTransport_length (1, 0) _ _ (by simp)⟩

/-! ## Claim C3: geodesic path length and boundary termination -/

theorem geodesicStep_x (params : EmotionalParams) (dt : ℝ) (st : GeoState) :
    (geodesicStep params dt st).x = st.x + dt * (geodesicStep params dt st).vx := rfl

theorem geodesicStep_y (params : EmotionalParams) (dt : ℝ) (st : GeoState) :
    (geodesicStep params dt st).y = st.y + dt * (geodesicStep params dt st).vy := rfl

theorem geodesicLoop_length_le (params : EmotionalParams) (dt : ℝ) :
    ∀ (n : ℕ) (st : GeoState), (geodesicLoop params dt n st).length ≤ n
  | 0, _ => by simp [geodesicLoop]
  | n + 1, st => by
      simp only [geodesicLoop, List.length_cons]
      split
      · simp
      · have := geodesicLoop_length_le params dt n (geodesicStep params dt st)
        omega

theorem geodesicLoop_ne_nil (params : EmotionalParams) (dt : ℝ) (n : ℕ)
    (hn : 1 ≤ n) (st : GeoState) : geodesicLoop params dt n st ≠ [] := by
  obtain ⟨m, rfl⟩ : ∃ m, n = m + 1 := ⟨n - 1, by omega⟩
  simp [geodesicLoop]

/-- Every state of the trace except possibly the last lies in the closed unit
square: the loop breaks immediately after the first state that leaves it. -/
theorem geodesicLoop_dropLast_inside (params : EmotionalParams) (dt : ℝ) :
    ∀ (n : ℕ) (st : GeoState),
      ∀ s ∈ (geodesicLoop params dt n st).dropLast, |s.x| ≤ 1 ∧ |s.y| ≤ 1
  | 0, st => by simp [geodesicLoop]
  | n + 1, st => by
      intro s hs
      by_cases hc : 1 < |(geodesicStep params dt st).x| ∨
        1 < |(geodesicStep params dt st).y|
      · simp only [geodesicLoop, if_pos hc, List.dropLast_single] at hs
        exact absurd hs (List.not_mem_nil s)
      · simp only [geodesicLoop, if_neg hc] at hs
        rcases hl : geodesicLoop params dt n (geodesicStep params dt st) with _ | ⟨b, l2⟩
        · rw [hl, List.dropLast_single] at hs
          exact absurd hs (List.not_mem_nil s)
        · rw [hl, List.dropLast_cons_of_ne_nil (by simp : (b :: l2 : List GeoState) ≠ [])] at hs
          rcases List.mem_cons.mp hs with rfl | hs2
          · push_neg at hc
            exact ⟨hc.1, hc.2⟩
          · apply geodesicLoop_dropLast_inside params dt n (geodesicStep params dt st) s
            rw [hl]
            exact hs2

/-- A trace shorter than its budget ended at the break: its last state is
outside the unit square. -/
theorem geodesicLoop_last_out (params : EmotionalParams) (dt : ℝ) :
    ∀ (n : ℕ) (st : GeoState) (d : GeoState),
      (geodesicLoop params dt n st).length < n →
      1 < |((geodesicLoop params dt n st).getLastD d).x| ∨
        1 < |((geodesicLoop params dt n st).getLastD d).y|
  | 0, _, _, hlt => absurd hlt (by simp)
  | n + 1, st, d, hlt => by
      by_cases hc : 1 < |(geodesicStep params dt st).x| ∨
        1 < |(geodesicStep params dt st).y|
      · simp only [geodesicLoop, if_pos hc, List.getLastD_cons, List.getLastD_nil]
        exact hc
      · simp only [geodesicLoop, if_neg hc, List.length_cons, List.getLastD_cons] at hlt ⊢
        exact geodesicLoop_last_out params dt n (geodesicStep params dt st)
          (geodesicStep params dt st) (by omega)

/-- The last state of a nonempty trace is the `length`-fold iterate of the
step function on the initial state. -/
theorem geodesicLoop_getLastD_eq (params : EmotionalParams) (dt : ℝ) :
    ∀ (n : ℕ) (st : GeoState) (d : GeoState), geodesicLoop params dt n st ≠ [] →
      (geodesicLoop params dt n st).getLastD d =
        (geodesicStep params dt)^[(geodesicLoop params dt n st).length] st
  | 0, _, _, hne => absurd rfl hne
  | n + 1, st, d, _ => by
      by_cases hc : 1 < |(geodesicStep params dt st).x| ∨
        1 < |(geodesicStep params dt st).y|
      · simp only [geodesicLoop, if_pos hc, List.getLastD_cons, List.getLastD_nil,
          List.length_cons, List.length_nil, zero_add, Function.iterate_one]
      · simp only [geodesicLoop, if_neg hc, List.getLastD_cons, List.length_cons]
        rcases eq_or_ne (geodesicLoop params dt n (geodesicStep params dt st)) [] with hl | hl
        · rw [hl]
          simp [Function.iterate_one]
        · rw [geodesicLoop_getLastD_eq params dt n (geodesicStep params dt st)
            (geodesicStep params dt st) hl, Function.iterate_succ_apply]

/-- Overshoot bound: when the trace has at least two states, its last state
is one step from a state inside the unit square, so it lies within
`|dt| * |velocity|` of the square in each coordinate. -/
theorem geodesicLoop_last_overshoot (params : EmotionalParams) (dt : ℝ) :
    ∀ (n : ℕ) (st : GeoState) (d : GeoState),
      2 ≤ (geodesicLoop params dt n st).length →
      |((geodesicLoop params dt n st).getLastD d).x| ≤
          1 + |dt| * |((geodesicLoop params dt n st).getLastD d).vx| ∧
        |((geodesicLoop params dt n st).getLastD d).y| ≤
          1 + |dt| * |((geodesicLoop params dt n st).getLastD d).vy|
  | 0, _, _, h2 => absurd h2 (by simp [geodesicLoop])
  | n + 1, st, d, h2 => by
      by_cases hc : 1 < |(geodesicStep params dt st).x| ∨
        1 < |(geodesicStep params dt st).y|
      · exfalso
        simp only [geodesicLoop, if_pos hc, List.length_cons, List.length_nil] at h2
        omega
      · simp only [geodesicLoop, if_neg hc, List.length_cons, List.getLastD_cons] at h2 ⊢
        push_neg at hc
        rcases Nat.lt_or_ge (geodesicLoop params dt n (geodesicStep params dt st)).length 2
          with hlen | hlen
        · have hne : geodesicLoop params dt n (geodesicStep params dt st) ≠ [] := by
            intro h0
            rw [h0] at h2
            simp at h2
          have hl1 : (geodesicLoop params dt n (geodesicStep params dt st)).length = 1 := by
            have := List.length_pos.mpr hne
            omega
          rw [geodesicLoop_getLastD_eq params dt n (geodesicStep params dt st)
            (geodesicStep params dt st) hne, hl1, Function.iterate_one]
          constructor
          · rw [geodesicStep_x]
            calc |(geodesicStep params dt st).x +
                dt * (geodesicStep params dt (geodesicStep params dt st)).vx|
                ≤ |(geodesicStep params dt st).x| +
                  |dt * (geodesicStep params dt (geodesicStep params dt st)).vx| :=
                abs_add _ _
              _ ≤ 1 + |dt| * |(geodesicStep params dt (geodesicStep params dt st)).vx| := by
                rw [abs_mul]
                exact add_le_add hc.1 le_rfl
          · rw [geodesicStep_y]
            calc |(geodesicStep params dt st).y +
                dt * (geodesicStep params dt (geodesicStep params dt st)).vy|
                ≤ |(geodesicStep params dt st).y| +
                  |dt * (geodesicStep params dt (geodesicStep params dt st)).vy| :=
                abs_add _ _
              _ ≤ 1 + |dt| * |(geodesicStep params dt (geodesicStep params dt st)).vy| := by
                rw [abs_mul]
                exact add_le_add hc.2 le_rfl
        · exact geodesicLoop_last_overshoot params dt n (geodesicStep params dt st)
            (geodesicStep params dt st) hlen

/-- The C3 boundary contract of `computeGeodesic`: the returned path is the
start point followed by the mapped trace; its length is at most `steps + 1`
and at least 2; every point strictly between the start point and the last
point lies in the unit square in normalized (`/3`) coordinates; a path shorter
than `steps + 1` ends at a state outside the square (the first crossing); and
whenever the trace has two or more states its final state exceeds the square
by at most `|dt| * |velocity|` per coordinate (the one-step overshoot `ε`). -/
def GeodesicBoundarySpec (strt fin : ℝ × ℝ) (params : EmotionalParams)
    (steps : ℕ) : Prop :=
  computeGeodesic strt fin params steps =
      geodesicPoint params ⟨strt.1, strt.2, 0, 0⟩ ::
        (geodesicLoop params (1 / (steps : ℝ)) steps (geodesicInit strt fin)).map
          (geodesicPoint params) ∧
  (computeGeodesic strt fin params steps).length ≤ steps + 1 ∧
  2 ≤ (computeGeodesic strt fin params steps).length ∧
  (∀ p ∈ (computeGeodesic strt fin params steps).tail.dropLast,
    |p.x / 3| ≤ 1 ∧ |p.y / 3| ≤ 1) ∧
  ((computeGeodesic strt fin params steps).length < steps + 1 →
    1 < |((geodesicLoop params (1 / (steps : ℝ)) steps
        (geodesicInit strt fin)).getLastD ⟨0, 0, 0, 0⟩).x| ∨
      1 < |((geodesicLoop params (1 / (steps : ℝ)) steps
        (geodesicInit strt fin)).getLastD ⟨0, 0, 0, 0⟩).y|) ∧
  (2 ≤ (geodesicLoop params (1 / (steps : ℝ)) steps (geodesicInit strt fin)).length →
    |((geodesicLoop params (1 / (steps : ℝ)) steps
        (geodesicInit strt fin)).getLastD ⟨0, 0, 0, 0⟩).x| ≤
      1 + |1 / (steps : ℝ)| * |((geodesicLoop params (1 / (steps : ℝ)) steps
        (geodesicInit strt fin)).getLastD ⟨0, 0, 0, 0⟩).vx| ∧
    |((geodesicLoop params (1 / (steps : ℝ)) steps
        (geodesicInit strt fin)).getLastD ⟨0, 0, 0, 0⟩).y| ≤
      1 + |1 / (steps : ℝ)| * |((geodesicLoop params (1 / (steps : ℝ)) steps
        (geodesicInit strt fin)).getLastD ⟨0, 0, 0, 0⟩).vy|)

/-- C3: for `steps ≥ 1`, `computeGeodesic` satisfies its boundary contract
(`GeodesicBoundarySpec`): length at most `steps + 1`, early termination only
at the first boundary crossing, and a final point within one integration step
of the unit square. -/
theorem computeGeodesic_boundary (strt fin : ℝ × ℝ) (params : EmotionalParams)
    (steps : ℕ) (hsteps : 1 ≤ steps) : GeodesicBoundarySpec strt fin params steps := by
  have hrepr : computeGeodesic strt fin params steps =
      geodesicPoint params ⟨strt.1, strt.2, 0, 0⟩ ::
        (geodesicLoop params (1 / (steps : ℝ)) steps (geodesicInit strt fin)).map
          (geodesicPoint params) := rfl
  refine ⟨hrepr, ?_, ?_, ?_, ?_, ?_⟩
  · rw [hrepr]
    simp only [List.length_cons, List.length_map]
    have := geodesicLoop_length_le params (1 / (steps : ℝ)) steps (geodesicInit strt fin)
    omega
  · rw [hrepr]
    simp only [List.length_cons, List.length_map]
    have hne := geodesicLoop_ne_nil params (1 / (steps : ℝ)) steps hsteps
      (geodesicInit strt fin)
    have := List.length_pos.mpr hne
    omega
  · intro p hp
    rw [hrepr] at hp
    simp only [List.tail_cons] at hp
    rw [← List.map_dropLast] at hp
    rcases List.mem_map.mp hp with ⟨s, hs, rfl⟩
    have hin := geodesicLoop_dropLast_inside params (1 / (steps : ℝ)) steps
      (geodesicInit strt fin) s hs
    have hx : (geodesicPoint params s).x / 3 = s.x := by
      simp only [geodesicPoint]
      ring
    have hy : (geodesicPoint params s).y / 3 = s.y := by
      simp only [geodesicPoint]
      ring
    rw [hx, hy]
    exact hin
  · intro hlt
    rw [hrepr] at hlt
    simp only [List.length_cons, List.length_map] at hlt
    exact geodesicLoop_last_out params (1 / (steps : ℝ)) steps (geodesicInit strt fin)
      ⟨0, 0, 0, 0⟩ (by omega)
  · intro h2
    exact geodesicLoop_last_overshoot params (1 / (steps : ℝ)) steps
      (geodesicInit strt fin) ⟨0, 0, 0, 0⟩ h2

theorem computeGeodesic_boundary_witness :
    GeodesicBoundarySpec (0, 0) (1, 0) ⟨0, 0, 0, 0, 0, 0, 0⟩ 1 :=
  computeGeodesic_boundary (0, 0) (1, 0) ⟨0, 0, 0, 0, 0, 0, 0⟩ 1 (by norm_num)

/-! ## Claim C4: flat-surface reduction at `V = 0` -/

theorem computeCurvature_V_zero (params : EmotionalParams) (hV : params.V = 0)
    (x y h : ℝ) : computeCurvature x y params h = 0 := by
  simp [computeCurvature, computeManifoldHeight_V_zero _ hV]

theorem atan2_zero_one : atan2 0 1 = 0 := by
  rw [atan2, if_pos (by norm_num : (0 : ℝ) < 1)]
  simp [Real.arctan_zero]

theorem parallelTransportAux_snd_V_zero (params : EmotionalParams) (hV : params.V = 0) :
    ∀ (path : List Vec3) (vec : ℝ × ℝ),
      (parallelTransportAux params vec path).map Prod.snd =
        List.replicate (path.length - 1) vec
  | [], _ => rfl
  | [_], _ => rfl
  | p1 :: p2 :: rest, vec => by
      simp only [parallelTransportAux, computeChristoffelSymbol_V_zero _ hV,
        zero_mul, mul_zero, add_zero, zero_add, neg_zero, Prod.mk.eta, List.map_cons,
        List.length_cons]
      rw [parallelTransportAux_snd_V_zero params hV (p2 :: rest) vec]
      simp [List.replicate_succ]

theorem getLastD_snd_const :
    ∀ (l : List (Vec3 × (ℝ × ℝ))) (v : ℝ × ℝ) (d : Vec3 × (ℝ × ℝ)),
      l ≠ [] → l.map Prod.snd = List.replicate l.length v → (l.getLastD d).2 = v
  | [], _, _, hne, _ => absurd rfl hne
  | [a], v, d, _, h => by
      simp only [List.map_cons, List.map_nil, List.length_cons, List.length_nil,
        zero_add, List.replicate_succ, List.replicate_zero] at h
      simp only [List.getLastD_cons, List.getLastD_nil]
      exact (List.cons_eq_cons.mp h).1
  | a :: b :: l, v, d, _, h => by
      rw [List.getLastD_cons]
      simp only [List.map_cons, List.length_cons, List.replicate_succ] at h
      injection h with h1 h2
      apply getLastD_snd_const (b :: l) v a (by simp)
      simp only [List.map_cons, List.length_cons, List.replicate_succ]
      exact h2

theorem computeConnectionCurvature_V_zero (params : EmotionalParams)
    (hV : params.V = 0) (x y h : ℝ) :
    computeConnectionCurvature x y params h = 0 := by
  simp only [computeConnectionCurvature, parallelTransport]
  set path := ([(x, y), (x + h, y), (x + h, y + h), (x, y + h), (x, y)].map fun q =>
    (⟨q.1 * 3, q.2 * 3, computeManifoldHeight q.1 q.2 params⟩ : Vec3)) with hpath
  have hlen : (parallelTransportAux params (1, 0) path).length = 4 := by
    rw [parallelTransportAux_length]
    rw [hpath]
    simp
  have hlast : ((parallelTransportAux params (1, 0) path).getLastD
      (⟨0, 0, 0⟩, (0, 0))).2 = (1, 0) := by
    apply getLastD_snd_const
    · intro h0
      rw [h0] at hlen
      simp at hlen
    · rw [parallelTransportAux_snd_V_zero params hV path (1, 0), hlen, hpath]
      simp
  rw [if_pos (by rw [hlen]; norm_num : 0 < (parallelTransportAux params (1, 0) path).length)]
  rw [hlast]
  simp

theorem geodesicDerivative_V_zero (params : EmotionalParams) (hV : params.V = 0)
    (x y vx vy : ℝ) : geodesicDerivative x y vx vy params = (0, 0) := by
  simp [geodesicDerivative, computeChristoffelSymbol_V_zero _ hV]

theorem geodesicStep_V_zero (params : EmotionalParams) (hV : params.V = 0)
    (dt : ℝ) (st : GeoState) :
    geodesicStep params dt st = ⟨st.x + dt * st.vx, st.y + dt * st.vy, st.vx, st.vy⟩ := by
  simp [geodesicStep, geodesicDerivative_V_zero _ hV]

theorem geodesicStep_iterate_V_zero (params : EmotionalParams) (hV : params.V = 0)
    (dt : ℝ) : ∀ (m : ℕ) (st : GeoState),
      (geodesicStep params dt)^[m] st =
        ⟨st.x + m * dt * st.vx, st.y + m * dt * st.vy, st.vx, st.vy⟩
  | 0, st => by simp
  | m + 1, st => by
      rw [Function.iterate_succ_apply, geodesicStep_V_zero _ hV,
        geodesicStep_iterate_V_zero params hV dt m]
      congr 1 <;> (push_cast; ring)

theorem geodesicLoop_getD (params : EmotionalParams) (dt : ℝ) :
    ∀ (n : ℕ) (st : GeoState) (i : ℕ), i < (geodesicLoop params dt n st).length →
      (geodesicLoop params dt n st).getD i ⟨0, 0, 0, 0⟩ =
        (geodesicStep params dt)^[i + 1] st
  | 0, st, i, hi => by simp [geodesicLoop] at hi
  | n + 1, st, 0, _ => by
      simp only [geodesicLoop, List.getD_cons_zero]
      rw [zero_add, Function.iterate_one]
  | n + 1, st, m + 1, hi => by
      simp only [geodesicLoop, List.getD_cons_succ]
      by_cases hc : 1 < |(geodesicStep params dt st).x| ∨
        1 < |(geodesicStep params dt st).y|
      · exfalso
        simp only [geodesicLoop, if_pos hc, List.length_cons, List.length_nil] at hi
        omega
      · rw [if_neg hc]
        have hm : m < (geodesicLoop params dt n (geodesicStep params dt st)).length := by
          simp only [geodesicLoop, if_neg hc, List.length_cons] at hi
          omega
        rw [geodesicLoop_getD params dt n (geodesicStep params dt st) m hm]
        exact (Function.iterate_succ_apply (geodesicStep params dt) (m + 1) st).symm

theorem geodesicInit_x (strt fin : ℝ × ℝ) : (geodesicInit strt fin).x = strt.1 := rfl

theorem geodesicInit_y (strt fin : ℝ × ℝ) : (geodesicInit strt fin).y = strt.2 := rfl

/-- The C4 flat-surface contract: with a constant (zero) height field, the
height is identically 0, every Christoffel symbol vanishes, both curvature
estimators are exactly 0 everywhere, and every geodesic is a straight-line
trace at constant velocity: its `idx`-th point is
`(start + idx · dt · direction) · 3` at height 0 (equally spaced collinear
points). -/
def FlatReductionSpec (params : EmotionalParams) : Prop :=
  (∀ x y : ℝ, computeManifoldHeight x y params = 0) ∧
  (∀ (i j k : Fin 2) (x y h : ℝ), computeChristoffelSymbol i j k x y params h = 0) ∧
  (∀ x y h : ℝ, computeCurvature x y params h = 0) ∧
  (∀ x y h : ℝ, computeConnectionCurvature x y params h = 0) ∧
  (∀ (strt fin : ℝ × ℝ) (steps idx : ℕ),
    idx < (computeGeodesic strt fin params steps).length →
    (computeGeodesic strt fin params steps).getD idx ⟨0, 0, 0⟩ =
      ⟨(strt.1 + idx * (1 / (steps : ℝ)) * (geodesicInit strt fin).vx) * 3,
        (strt.2 + idx * (1 / (steps : ℝ)) * (geodesicInit strt fin).vy) * 3, 0⟩)

/-- C4: a parameter record with `V = 0` makes every emotion weight zero, so
the height field is constant 0, all Christoffel symbols and both curvature
measures vanish, and geodesics are straight-line traces at constant
velocity. -/
theorem flatReduction_V_zero (params : EmotionalParams) (hV : params.V = 0) :
    FlatReductionSpec params := by
  refine ⟨computeManifoldHeight_V_zero params hV,
    computeChristoffelSymbol_V_zero params hV,
    computeCurvature_V_zero params hV,
    computeConnectionCurvature_V_zero params hV, ?_⟩
  intro strt fin steps idx hidx
  match idx with
  | 0 =>
      simp [computeGeodesic, geodesicPoint, computeManifoldHeight_V_zero _ hV]
  | m + 1 =>
      have hrepr : computeGeodesic strt fin params steps =
          geodesicPoint params ⟨strt.1, strt.2, 0, 0⟩ ::
            (geodesicLoop params (1 / (steps : ℝ)) steps (geodesicInit strt fin)).map
              (geodesicPoint params) := rfl
      rw [hrepr] at hidx ⊢
      rw [List.getD_cons_succ]
      simp only [List.length_cons, List.length_map] at hidx
      have hm : m < (geodesicLoop params (1 / (steps : ℝ)) steps
          (geodesicInit strt fin)).length := by omega
      rw [List.getD_eq_getElem _ _ (by simpa using hm), List.getElem_map,
        ← List.getD_eq_getElem _ (⟨0, 0, 0, 0⟩ : GeoState) hm,
        geodesicLoop_getD params (1 / (steps : ℝ)) steps (geodesicInit strt fin) m hm,
        geodesicStep_iterate_V_zero params hV]
      simp only [geodesicPoint, computeManifoldHeight_V_zero _ hV, geodesicInit_x,
        geodesicInit_y, Vec3.mk.injEq]

theorem flatReduction_witness : FlatReductionSpec ⟨0, 0, 0, 0, 0, 0, 0⟩ :=
  flatReduction_V_zero ⟨0, 0, 0, 0, 0, 0, 0⟩ rfl

/-! ## Claim C1: the memoization cache versus fresh computation

The cache key carries only `(i, j, k)` and the quantized position — neither
`params` nor `h` — so a prior call with different parameters poisons later
queries at the same key. The concrete refutation uses `params0` (everything
zero, so every Christoffel symbol is exactly 0) for the first call and
`params1` below, whose fresh Christoffel symbol `Γ⁰₀₀` at `(0, 1/100)` with
`h = 1/100` is strictly positive. -/

def params0 : EmotionalParams := ⟨0, 0, 0, 0, 0, 0, 0⟩

/-- `EP = P = 0` (unused by the height field), `V = SC = W_p = 1`, `Acc = 0`,
`T = 0`: only fear and worry survive, with weight 1, giving the height field
`(tanh(4·max(x-y,0))·4 + tanh(3·max(x-y,0))·3) / (15+1e-9) · 2`. -/
def params1 : EmotionalParams := ⟨0, 0, 1, 1, 0, 1, 0⟩

theorem computeManifoldHeight_params1 (X Y : ℝ) :
    computeManifoldHeight X Y params1 =
      (Real.tanh (4 * max (X - Y) 0) * 4 + Real.tanh (3 * max (X - Y) 0) * 3) /
        (15 + 1e-9) * 2 := by
  simp only [computeManifoldHeight, computeAllEmotions, computeHappiness,
    computeSadness, computeFear, computeAnger, computeWorry, params1]
  norm_num [Real.tanh_zero]

theorem computeManifoldHeight_params1_of_le (X Y : ℝ) (hXY : X ≤ Y) :
    computeManifoldHeight X Y params1 = 0 := by
  rw [computeManifoldHeight_params1, max_eq_right (by linarith : X - Y ≤ 0)]
  simp [Real.tanh_zero]

/-- The height of `params1` at the one sample point right of the diagonal. -/
noncomputable def Aval : ℝ :=
  (Real.tanh (4 * (1 / 100)) * 4 + Real.tanh (3 * (1 / 100)) * 3) / (15 + 1e-9) * 2

theorem computeManifoldHeight_params1_A :
    computeManifoldHeight (0 + 1 / 100 + 1 / 100) (1 / 100) params1 = Aval := by
  rw [computeManifoldHeight_params1,
    (by norm_num : max ((0 : ℝ) + 1 / 100 + 1 / 100 - 1 / 100) 0 = 1 / 100)]
  rfl

theorem Aval_pos : 0 < Aval := by
  have h4 : 0 < Real.tanh (4 * (1 / 100)) := tanh_pos (by norm_num)
  have h3 : 0 < Real.tanh (3 * (1 / 100)) := tanh_pos (by norm_num)
  have hden : (0 : ℝ) < 15 + 1e-9 := by norm_num
  apply mul_pos _ (by norm_num : (0 : ℝ) < 2)
  apply div_pos _ hden
  nlinarith

theorem metric_params1_base :
    computeMetricTensor 0 (1 / 100) params1 (1 / 100) = ![![1, 0], ![0, 1]] := by
  have h1 : computeManifoldHeight 0 (1 / 100) params1 = 0 :=
    computeManifoldHeight_params1_of_le _ _ (by norm_num)
  have h2 : computeManifoldHeight (0 + 1 / 100) (1 / 100) params1 = 0 :=
    computeManifoldHeight_params1_of_le _ _ (by norm_num)
  have h3 : computeManifoldHeight 0 (1 / 100 + 1 / 100) params1 = 0 :=
    computeManifoldHeight_params1_of_le _ _ (by norm_num)
  funext a b
  fin_cases a <;> fin_cases b <;>
    (simp only [computeMetricTensor, h1, h2, h3, Matrix.cons_val_zero,
       Matrix.cons_val_one, Matrix.head_cons]
     norm_num)

theorem invert_params1_base :
    invertMatrix2x2 (computeMetricTensor 0 (1 / 100) params1 (1 / 100)) =
      ![![1, 0], ![0, 1]] := by
  rw [metric_params1_base]
  funext a b
  simp only [invertMatrix2x2]
  rw [if_neg (by norm_num [matDet2])]
  fin_cases a <;> fin_cases b <;> norm_num [matDet2]

theorem metric_params1_xshift :
    computeMetricTensor (0 + 1 / 100) (1 / 100) params1 (1 / 100) =
      ![![1 + Aval / (1 / 100) * (Aval / (1 / 100)), 0], ![0, 1]] := by
  have h1 : computeManifoldHeight (0 + 1 / 100) (1 / 100) params1 = 0 :=
    computeManifoldHeight_params1_of_le _ _ (by norm_num)
  have h2 := computeManifoldHeight_params1_A
  have h3 : computeManifoldHeight (0 + 1 / 100) (1 / 100 + 1 / 100) params1 = 0 :=
    computeManifoldHeight_params1_of_le _ _ (by norm_num)
  funext a b
  fin_cases a <;> fin_cases b <;>
    (simp only [computeMetricTensor, h1, h2, h3, Matrix.cons_val_zero,
       Matrix.cons_val_one, Matrix.head_cons]
     norm_num)

theorem metric_params1_yshift :
    computeMetricTensor 0 (1 / 100 + 1 / 100) params1 (1 / 100) =
      ![![1, 0], ![0, 1]] := by
  have h1 : computeManifoldHeight 0 (1 / 100 + 1 / 100) params1 = 0 :=
    computeManifoldHeight_params1_of_le _ _ (by norm_num)
  have h2 : computeManifoldHeight (0 + 1 / 100) (1 / 100 + 1 / 100) params1 = 0 :=
    computeManifoldHeight_params1_of_le _ _ (by norm_num)
  have h3 : computeManifoldHeight 0 (1 / 100 + 1 / 100 + 1 / 100) params1 = 0 :=
    computeManifoldHeight_params1_of_le _ _ (by norm_num)
  funext a b
  fin_cases a <;> fin_cases b <;>
    (simp only [computeMetricTensor, h1, h2, h3, Matrix.cons_val_zero,
       Matrix.cons_val_one, Matrix.head_cons]
     norm_num)

theorem metricDeriv_params1_x :
    computeMetricDerivative 0 (1 / 100) params1 (1 / 100) 0 =
      ![![Aval / (1 / 100) * (Aval / (1 / 100)) / (1 / 100), 0], ![0, 0]] := by
  funext a b
  fin_cases a <;> fin_cases b <;>
    (simp only [computeMetricDerivative, if_pos (rfl : (0 : Fin 2) = 0),
       metric_params1_base, metric_params1_xshift, Matrix.cons_val_zero,
       Matrix.cons_val_one, Matrix.head_cons]
     norm_num)

theorem metricDeriv_params1_y :
    computeMetricDerivative 0 (1 / 100) params1 (1 / 100) 1 =
      ![![0, 0], ![0, 0]] := by
  funext a b
  fin_cases a <;> fin_cases b <;>
    (simp only [computeMetricDerivative, if_neg (by decide : ¬((1 : Fin 2) = 0)),
       metric_params1_base, metric_params1_yshift, Matrix.cons_val_zero,
       Matrix.cons_val_one, Matrix.head_cons]
     norm_num)

theorem christoffel_params1_pos :
    0 < computeChristoffelSymbol 0 0 0 0 (1 / 100) params1 (1 / 100) := by
  have hA := Aval_pos
  simp only [computeChristoffelSymbol, invert_params1_base, metricDeriv_params1_x,
    metricDeriv_params1_y, Matrix.cons_val_zero, Matrix.cons_val_one, Matrix.head_cons]
  norm_num
  nlinarith [mul_pos hA hA]

/-- C1 counterexample: a prior `christoffel` call with different parameters
(here `params0`, whose symbols are all 0) at the same `(i, j, k)` and the same
quantized position changes the result of a later call with `params1`: the
cache returns the stale 0 while a fresh computation with an empty cache is
strictly positive. The claim as stated is therefore false on the code — the
cache key omits `params` and `h`. -/
theorem christoffelCache_poisoning :
    (computeChristoffelSymbolCached
        (computeChristoffelSymbolCached emptyChristoffelCache
          0 0 0 0 (1 / 100) params0 (1 / 100)).2
        0 0 0 0 (1 / 100) params1 (1 / 100)).1 ≠
      computeChristoffelSymbol 0 0 0 0 (1 / 100) params1 (1 / 100) := by
  have hres : (computeChristoffelSymbolCached
      (computeChristoffelSymbolCached emptyChristoffelCache
        0 0 0 0 (1 / 100) params0 (1 / 100)).2
      0 0 0 0 (1 / 100) params1 (1 / 100)).1 = 0 := by
    simp [computeChristoffelSymbolCached, emptyChristoffelCache,
      computeChristoffelSymbol_V_zero params0 rfl]
  rw [hres]
  exact ne_of_lt christoffel_params1_pos

/-- C1 amended: repeated calls with identical inputs return identical results
(the second call hits the key the first call resolved), and a call on an
empty cache returns exactly the fresh computation; but — per the
counterexample — a prior call with different `params` or `h`, or at a
position quantizing to the same key, can make the result differ from a fresh
computation. -/
theorem christoffelCached_deterministic (cache : ChristoffelCache) (i j k : Fin 2)
    (x y : ℝ) (params : EmotionalParams) (h : ℝ) :
    (computeChristoffelSymbolCached
        (computeChristoffelSymbolCached cache i j k x y params h).2
        i j k x y params h).1 =
      (computeChristoffelSymbolCached cache i j k x y params h).1 ∧
    (computeChristoffelSymbolCached emptyChristoffelCache i j k x y params h).1 =
      computeChristoffelSymbol i j k x y params h := by
  constructor
  · rcases hv : cache (christoffelKey i j k x y) with _ | v
    · simp [computeChristoffelSymbolCached, hv]
    · simp [computeChristoffelSymbolCached, hv]
  · simp [computeChristoffelSymbolCached, emptyChristoffelCache]

end EmotionalManifold
